import Mathlib

/-!
Verification model of the MITM proxy core of `genshin-gacha-exporter`
(`src/mitm/mod.rs`, `src/mitm/service.rs`, `src/mitm/cert.rs`).

The Rust code is shallowly embedded: each relevant Rust function becomes a
Lean function over explicit inputs (filesystem contents, channel state,
request fields), and the effects the claims talk about (file writes, the
CONNECT acknowledgment, the channel send) are made visible either in the
return value or in an event trace.
-/

namespace Mitm

/-- `DOMAIN_INTERCEPT` from `src/mitm/mod.rs`: the fixed compiled-in list of
hostnames that are TLS-terminated. -/
def DOMAIN_INTERCEPT : List String := ["hk4e-api.mihoyo.com", "hk4e-api-os.mihoyo.com"]

/-- `PAGE_INTERCEPT_SUFFIX` from `src/mitm/mod.rs`: the sentinel path suffix. -/
def PAGE_INTERCEPT_SUFFIX : String := "getGachaLog"

/-- Model of Rust `str::ends_with` on strings, as suffix comparison of the
underlying character lists. -/
def ends_with (s suffix : String) : Bool := suffix.data.isSuffixOf s.data

/-- The three handling paths of the connection router
(`impl Service<Request<Body>> for MitmService`, `src/mitm/service.rs`). -/
inductive Route
  | intercept
  | tunnel
  | forward
  deriving DecidableEq, Repr

/-- The router's per-request classification (`MitmService::call`,
`src/mitm/service.rs` lines 86-99): a CONNECT whose authority host equals
(string equality, hence case-sensitively) some member of `DOMAIN_INTERCEPT`
is intercepted; any other CONNECT is tunneled; any other method is forwarded.
`authorityHost` is `req.uri().authority().map(|a| a.host())`. -/
def classify (method : String) (authorityHost : Option String) : Route :=
  if method = "CONNECT" then
    if DOMAIN_INTERCEPT.any (fun domain => authorityHost = some domain) then
      Route.intercept
    else
      Route.tunnel
  else
    Route.forward

/-- An HTTP header value as raw bytes (hyper `HeaderValue`). -/
structure HeaderValue where
  bytes : List Nat
  deriving DecidableEq, Repr

/-- Model of hyper `HeaderValue::to_str`: succeeds (with the bytes read as
characters) exactly when every byte is visible ASCII (32-126). -/
def HeaderValue.to_str (h : HeaderValue) : Option String :=
  if h.bytes.all (fun b => 32 ≤ b ∧ b ≤ 126) then
    some (String.mk (h.bytes.map Char.ofNat))
  else
    none

/-- `http::uri::PathAndQuery` of an inner (origin-form) request: the path and
the optional query. `as_str` renders `path?query`. -/
structure PathAndQuery where
  path : String
  query : Option String
  deriving DecidableEq, Repr

/-- `PathAndQuery::as_str`. -/
def PathAndQuery.as_str (pq : PathAndQuery) : String :=
  pq.path ++ (match pq.query with
    | some q => "?" ++ q
    | none => "")

/-- The fields of an inner decrypted request that `proxy_intercept`'s
`service_fn` closure reads: the `host` header (if present) and the request
URI's path-and-query (if present). -/
structure InnerRequest where
  hostHeader : Option HeaderValue
  pathAndQuery : Option PathAndQuery
  deriving DecidableEq, Repr

/-- State of the bounded mpsc `CaptureChannel` (`mpsc::channel(16)`) at the
moment of a `Sender::send`: space is available, the buffer is full (the send
suspends until the receiver frees space or closes), or the receiver has been
dropped (the send resolves with an error). -/
inductive ChannelState
  | available
  | full
  | closed
  deriving DecidableEq, Repr

/-! ### The `reqwest::Url` parse step (service.rs line 144)

The value sent on the capture channel is
`req.uri().to_string().parse().unwrap()` — a `reqwest::Url`, i.e. the result
of the WHATWG URL parser of the `url` crate on the string
`"https://" ++ authority ++ pathQuery` that the `Uri` builder composed.  That
parse normalizes (percent-decodes and ASCII-lowercases the host, strips a
default `:443` port, canonicalizes the path with separator/dot-segment
handling and percent-encoding, percent-encodes the query) and can fail, which
the `unwrap` turns into a panic.  `url_parse` below embeds that parser on the
fragment of inputs this call site can produce: an ASCII authority (the Host
header is visible ASCII by `HeaderValue::to_str`) and a `pathQuery` that is a
hyper `PathAndQuery` rendering (so it contains no `#`, its path contains no
`?`, and a path able to match the sentinel suffix starts with `/`).  Bracketed
IPv6 hosts and percent-escapes decoding outside printable ASCII (which would
need IPv6 canonicalization resp. IDNA) are not modeled: the forbidden-host
check fails on them. -/

/-- ASCII-lowercase one character, as WHATWG domain-to-ASCII does for plain
ASCII domains. -/
def ascii_lower (c : Char) : Char :=
  if 65 ≤ c.toNat ∧ c.toNat ≤ 90 then Char.ofNat (c.toNat + 32) else c

/-- Uppercase hexadecimal digit for `n % 16`. -/
def hex_upper (n : Nat) : Char :=
  if n % 16 < 10 then Char.ofNat (48 + n % 16) else Char.ofNat (55 + n % 16)

/-- WHATWG percent-encoding of one ASCII character, uppercase hex. -/
def percent_encode_char (c : Char) : List Char :=
  [Char.ofNat 37, hex_upper (c.toNat / 16), hex_upper c.toNat]

/-- The url crate's PATH percent-encode set, by byte value: C0 controls,
DEL/non-ASCII, space, `"` (34), `#` (35), `<` (60), `>` (62), `?` (63),
backtick (96) and the two curly brackets (123, 125). -/
def in_path_encode_set (c : Char) : Bool :=
  c.toNat < 32 ∨ 126 < c.toNat ∨
    c.toNat ∈ [32, 34, 35, 60, 62, 63, 96, 123, 125]

/-- The url crate's SPECIAL_QUERY percent-encode set, by byte value: C0
controls, DEL/non-ASCII, space, `"` (34), `#` (35), apostrophe (39),
`<` (60) and `>` (62). -/
def in_query_encode_set (c : Char) : Bool :=
  c.toNat < 32 ∨ 126 < c.toNat ∨ c.toNat ∈ [32, 34, 35, 39, 60, 62]

/-- The url crate's USERINFO percent-encode set: the PATH set plus, by byte
value, `/` (47), `:` (58), `;` (59), `=` (61), `@` (64), the square brackets
and backslash (91, 92, 93), `^` (94) and `|` (124). -/
def in_userinfo_encode_set (c : Char) : Bool :=
  in_path_encode_set c ∨ c.toNat ∈ [47, 58, 59, 61, 64, 91, 92, 93, 94, 124]

/-- WHATWG forbidden domain code points (checked after percent-decoding the
host), by byte value: all of C0 and space (≤ 32), DEL and non-ASCII (the
latter standing in for the unmodeled IDNA step), `#` (35), `%` (37, a
leftover unencodable percent), `/` (47), `:` (58), `<` (60), `>` (62),
`?` (63), `@` (64), `[`, `\`, `]` (91-93), `^` (94) and `|` (124). -/
def forbidden_domain_char (c : Char) : Bool :=
  c.toNat ≤ 32 ∨ 126 < c.toNat ∨
    c.toNat ∈ [35, 37, 47, 58, 60, 62, 63, 64, 91, 92, 93, 94, 124]

/-- Hexadecimal digit value of a character, `none` for non-hex. -/
def hex_val (c : Char) : Option Nat :=
  if 48 ≤ c.toNat ∧ c.toNat ≤ 57 then some (c.toNat - 48)
  else if 65 ≤ c.toNat ∧ c.toNat ≤ 70 then some (c.toNat - 55)
  else if 97 ≤ c.toNat ∧ c.toNat ≤ 102 then some (c.toNat - 87)
  else none

/-- WHATWG percent-decoding: each valid `%XX` triple becomes the byte `XX`;
an invalid `%` is copied as-is. -/
def percent_decode : List Char → List Char
  | [] => []
  | '%' :: a :: b :: rest =>
    match hex_val a, hex_val b with
    | some ha, some hb => Char.ofNat (16 * ha + hb) :: percent_decode rest
    | _, _ => '%' :: percent_decode (a :: b :: rest)
  | c :: rest => c :: percent_decode rest

/-- Split a list at the last occurrence of `sep` (as the WHATWG authority
state does for `@`), `none` when `sep` does not occur. -/
def split_at_last (sep : Char) : List Char → Option (List Char × List Char)
  | [] => none
  | c :: rest =>
    match split_at_last sep rest with
    | some (pre, post) => some (c :: pre, post)
    | none => if c = sep then some ([], rest) else none

/-- Split a list at the first occurrence of `sep` (as the WHATWG host state
does for `:` and the path state for `?`); the second component is `none`
when `sep` does not occur. -/
def split_at_first (sep : Char) : List Char → List Char × Option (List Char)
  | [] => ([], none)
  | c :: rest =>
    if c = sep then ([], some rest)
    else
      let (p, q) := split_at_first sep rest
      (c :: p, q)

/-- WHATWG port parsing: absent or empty means no port; otherwise all digits
(value at most 65535, leading zeros dropped by the numeric reading) or
failure. -/
def parse_port : Option (List Char) → Option (Option Nat)
  | none => some none
  | some [] => some none
  | some ds =>
    if ds.all (fun c => 48 ≤ c.toNat ∧ c.toNat ≤ 57) then
      let v := ds.foldl (fun acc c => 10 * acc + (c.toNat - 48)) 0
      if v ≤ 65535 then some (some v) else none
    else none

/-- Split a path into segments at the WHATWG special-scheme path separators
`/` (47) and `\` (92). -/
def split_path_segments : List Char → List (List Char)
  | [] => [[]]
  | c :: rest =>
    if c.toNat = 47 ∨ c.toNat = 92 then [] :: split_path_segments rest
    else
      match split_path_segments rest with
      | s :: tail => (c :: s) :: tail
      | [] => [[c]]

/-- A segment, lowercased, for dot-segment detection. -/
def seg_lower (s : List Char) : String := (s.map ascii_lower).asString

/-- WHATWG single-dot path segment (`.` or `%2e`, case-insensitive). -/
def is_single_dot (s : List Char) : Bool :=
  seg_lower s = "." ∨ seg_lower s = "%2e"

/-- WHATWG double-dot path segment (`..` and its percent-encoded variants,
case-insensitive). -/
def is_double_dot (s : List Char) : Bool :=
  seg_lower s = ".." ∨ seg_lower s = ".%2e" ∨ seg_lower s = "%2e." ∨
    seg_lower s = "%2e%2e"

/-- The WHATWG path state's dot-segment handling over the split segments
(`acc` holds the path built so far, reversed): a double-dot segment pops the
last segment (and, when it is the final segment, leaves a trailing empty
segment), a single-dot segment is dropped (leaving a trailing empty segment
when final), anything else is appended. -/
def process_segments (acc : List (List Char)) : List (List Char) → List (List Char)
  | [] => acc.reverse
  | [s] =>
    if is_double_dot s then ([] :: acc.drop 1).reverse
    else if is_single_dot s then ([] :: acc).reverse
    else (s :: acc).reverse
  | s :: rest =>
    if is_double_dot s then process_segments (acc.drop 1) rest
    else if is_single_dot s then process_segments acc rest
    else process_segments (s :: acc) rest

/-- Percent-encode every character of `l` that lies in the given set. -/
def encode_with (inSet : Char → Bool) (l : List Char) : List Char :=
  l.flatMap (fun c => if inSet c then percent_encode_char c else [c])

/-- WHATWG path canonicalization for a special scheme: drop the leading
separator, split at `/` and `\`, process dot segments, percent-encode each
remaining segment with the PATH set, and serialize with a `/` before every
segment (the empty path becomes `/`). -/
def normalize_path (p : List Char) : List Char :=
  let rest := match p with
    | c :: cs => if c.toNat = 47 ∨ c.toNat = 92 then cs else p
    | [] => []
  let segs := process_segments [] (split_path_segments rest)
  segs.foldl (fun acc s => acc ++ '/' :: encode_with in_path_encode_set s) []

/-- `reqwest::Url::parse` (the WHATWG URL parser) applied to
`"https://" ++ authority ++ pathQuery` as composed at service.rs lines
136-144, on the fragment described in the section comment above: split the
authority into userinfo (at the last `@`), host and port (at the first `:`);
percent-decode the host, fail on an empty host or a forbidden domain code
point, ASCII-lowercase it; parse the port, dropping the https default 443;
split `pathQuery` at the first `?`, canonicalize the path and percent-encode
the query; `none` is a parse failure, which `unwrap` turns into a panic. -/
def url_parse (authority pathQuery : String) : Option String :=
  let (userinfo, hostport) :=
    match split_at_last '@' authority.data with
    | some (u, hp) => (some u, hp)
    | none => (none, authority.data)
  let (hostRaw, portRaw) := split_at_first ':' hostport
  let host := percent_decode hostRaw
  if host = [] then none
  else if host.any forbidden_domain_char then none
  else
    match parse_port portRaw with
    | none => none
    | some portOpt =>
      let hostStr := host.map ascii_lower
      let portStr : List Char :=
        match portOpt with
        | some v => if v = 443 then [] else ':' :: (toString v).data
        | none => []
      let userStr : List Char :=
        match userinfo with
        | none => []
        | some [] => []
        | some ui =>
          let (u, pw) := split_at_first ':' ui
          let pwStr : List Char :=
            match pw with
            | none => []
            | some [] => []
            | some pwc => ':' :: encode_with in_userinfo_encode_set pwc
          encode_with in_userinfo_encode_set u ++ pwStr ++ ['@']
      let (pathRaw, queryRaw) := split_at_first '?' pathQuery.data
      let queryStr : List Char :=
        match queryRaw with
        | none => []
        | some q => '?' :: encode_with in_query_encode_set q
      some (("https://".data ++ userStr ++ hostStr ++ portStr ++
        normalize_path pathRaw ++ queryStr).asString)

/-- Outcome of one run of the inner handler closure
(`MitmService::proxy_intercept`, `src/mitm/service.rs` lines 117-148). -/
inductive InnerOutcome
  /-- An `unwrap` failed: while rebuilding the absolute URI (absent or
  non-ASCII Host header) or in `.parse().unwrap()` on the URL sent to the
  channel. -/
  | panicked
  /-- `sender.send(url).await?` resolved with an error which the `?`
  propagated: the closure returns `Err` and the request is never forwarded. -/
  | errored
  /-- The rewritten request was forwarded to the origin through the outbound
  client; `uri` is its target (the rebuilt hyper `Uri`, verbatim), `sent` is
  the serialized `reqwest::Url` put on the channel, if any, and `suspended`
  records whether the send had to wait for channel capacity. -/
  | forwarded (uri : String) (sent : Option String) (suspended : Bool)
  deriving DecidableEq, Repr

/-- The inner handler closure of `MitmService::proxy_intercept`
(`src/mitm/service.rs` lines 117-148), one decrypted request at a time:

* rebuild the URI as `https://` + host header + path-and-query (defaulting to
  `/`), panicking (`unwrap`) when the host header is absent or not visible
  ASCII;
* if the rewritten path (query excluded) ends with `PAGE_INTERCEPT_SUFFIX`,
  parse `req.uri().to_string()` into a `reqwest::Url` (`url_parse`; its
  `unwrap` panics on failure) and `sender.send(url).await?`: on a full
  channel the send suspends until space, on a closed channel it returns
  `Err` which aborts the handler;
* otherwise, and after a successful send, forward the rewritten request via
  `client.request`. -/
def proxy_intercept_inner (ch : ChannelState) (req : InnerRequest) : InnerOutcome :=
  match req.hostHeader with
  | none => InnerOutcome.panicked
  | some hv =>
    match hv.to_str with
    | none => InnerOutcome.panicked
    | some host =>
      let pqStr := (req.pathAndQuery.map PathAndQuery.as_str).getD "/"
      let newUri := "https://" ++ host ++ pqStr
      let newPath := (req.pathAndQuery.map PathAndQuery.path).getD "/"
      if ends_with newPath PAGE_INTERCEPT_SUFFIX then
        match url_parse host pqStr with
        | none => InnerOutcome.panicked
        | some url =>
          match ch with
          | ChannelState.closed => InnerOutcome.errored
          | ChannelState.full => InnerOutcome.forwarded newUri (some url) true
          | ChannelState.available => InnerOutcome.forwarded newUri (some url) false
      else
        InnerOutcome.forwarded newUri none false

/-! ### Tunnel path (`proxy_pass_tls`, `acquire_connection`) -/

/-- Completion of one direction of the splice copy (`tokio::io::copy`): the
copy future resolves at `time`, with `ok = true` on end-of-stream of its read
half and `ok = false` on an I/O error. -/
structure CopyOutcome where
  time : Nat
  ok : Bool
  deriving DecidableEq, Repr

/-- Resolution time of `tokio::try_join!(client_to_remote, remote_to_client)`
(`src/mitm/service.rs` line 169): the macro polls both futures, resolves with
`Err` as soon as either future resolves with an error (dropping the other
future), and resolves with `Ok` only once both futures have resolved
successfully. -/
def try_join_end (a b : CopyOutcome) : Nat :=
  match a.ok, b.ok with
  | true, true => max a.time b.time
  | false, true => a.time
  | true, false => b.time
  | false, false => min a.time b.time

/-- Observable lifetime of one tunnel splice: when the spawned task finishes
and when each of the two streams is closed (dropped). -/
structure SpliceResult where
  endTime : Nat
  clientClosedAt : Nat
  remoteClosedAt : Nat
  deriving DecidableEq, Repr

/-- The spawned task of `MitmService::proxy_pass_tls` (`src/mitm/service.rs`
lines 161-171): run the two copies under `try_join!`; the task body owns both
streams, so both are dropped (closed) exactly when the task returns, at
`try_join_end`. -/
def tunnel_session (a b : CopyOutcome) : SpliceResult :=
  let t := try_join_end a b
  ⟨t, t, t⟩

/-- Steps of `proxy_pass_tls` that a client can observe, in order. -/
inductive TlsStep
  /-- `acquire_connection` resolved successfully: raw TCP connection to the
  requested authority is established. -/
  | acquiredConnection
  /-- The splice task was spawned. -/
  | spawnedSplice
  /-- The handler returned `Ok(Response::new(Body::empty()))`: the success
  acknowledgment of the CONNECT. -/
  | ackSent
  deriving DecidableEq, Repr

/-- `MitmService::acquire_connection` (`src/mitm/service.rs` lines 181-195):
connect to the request's authority, the empty string when no authority is
present (`unwrap_or_default`). `net` gives the outcome of a raw TCP connect
to a given authority. -/
def acquire_connection (net : String → Except String Unit) (authority : Option String) :
    Except String Unit :=
  net (authority.getD "")

/-- `MitmService::proxy_pass_tls` (`src/mitm/service.rs` lines 159-173):
`acquire_connection` runs first and its error is propagated by `?` (the
handler resolves with that error and nothing else happens); only on success
is the splice task spawned and the CONNECT acknowledged. Returns the ordered
trace of observable steps together with the handler's result. -/
def proxy_pass_tls (net : String → Except String Unit) (authority : Option String) :
    List TlsStep × Except String Unit :=
  match acquire_connection net authority with
  | Except.error e => ([], Except.error e)
  | Except.ok _ =>
    ([TlsStep.acquiredConnection, TlsStep.spawnedSplice, TlsStep.ackSent], Except.ok ())

/-! ### Lifecycle coordinator (`tap_for_url`) -/

/-- Failure of the overall wait of `tap_for_url`. -/
inductive TapError
  /-- `anyhow!("broken pipe of URL retrieval")`: the capture channel closed
  with no value ever delivered. -/
  | noUrlCaptured
  deriving DecidableEq, Repr

/-- What `tap_for_url`'s wait produces: whether graceful shutdown of the
listener was triggered, and the overall result. -/
structure TapResult where
  shutdownTriggered : Bool
  result : Except TapError String
  deriving Repr

/-- The wait-and-shutdown portion of `tap_for_url` (`src/mitm/mod.rs` lines
72-81), modeled over `delivered`, the sequence of values ever delivered on
the capture channel before all senders drop. `receiver.recv().await` resolves
with the first delivered value, or with `None` when the channel closes having
delivered nothing; either way the graceful-shutdown future then completes.
The final `Option` is turned into an error by
`ok_or_else(|| anyhow!("broken pipe of URL retrieval"))`. -/
def tap_for_url (delivered : List String) : TapResult :=
  match delivered.head? with
  | none => ⟨true, Except.error TapError.noUrlCaptured⟩
  | some u => ⟨true, Except.ok u⟩

/-! ### Certificate authority (`setup_certificate`, `src/mitm/cert.rs`) -/

/-- Contents of the two root-CA artifact files, `./ca.cer` and `./ca.key`:
`none` when the file does not exist, `some bytes` when it does. -/
structure FileSystem where
  certFile : Option (List Nat)
  keyFile : Option (List Nat)
  deriving DecidableEq, Repr

/-- Failures of `setup_certificate`. Parse failures of a present artifact
(`"无效的证书私钥"` / `"无效的根证书"`) are configuration errors. -/
inductive CertError
  | configError (msg : String)
  deriving DecidableEq, Repr

/-- A freshly generated root CA (`GenCertificate::from_params` on
`generate_ca_cerficate_params()`): its DER-serialized certificate and
private-key bytes. Generation and serialization are crypto externals, so the
produced bytes are an input of the model. -/
structure GeneratedCa where
  der : List Nat
  keyDer : List Nat
  deriving DecidableEq, Repr

/-- Observable events of one `setup_certificate` run, in order. -/
inductive CertEvent
  /-- Both artifact files were read and parsed successfully. -/
  | loadedArtifacts
  /-- A new root CA was generated. -/
  | generatedCa
  /-- `File::create` + `write_all` of the certificate artifact. -/
  | wroteCert (bytes : List Nat)
  /-- `File::create` + `write_all` of the private-key artifact. -/
  | wroteKey (bytes : List Nat)
  /-- `serialize_der_with_signer(&ca_cert)`: the leaf certificate was signed
  by the active root — the first use of the root CA. -/
  | signedLeaf (issuerDer : List Nat)
  deriving DecidableEq, Repr

/-- The per-run leaf certificate (`generate_simple_self_signed` signed via
`serialize_der_with_signer`): its subject-alternative-name list and the DER
of the root certificate that signed it. -/
structure Leaf where
  subjectAltNames : List String
  issuerDer : List Nat
  deriving DecidableEq, Repr

/-- Result of a successful `setup_certificate` run: the filesystem after the
run, the ordered event trace, the DER bytes of the active root certificate,
and the minted leaf certificate. -/
structure SetupResult where
  fs : FileSystem
  events : List CertEvent
  caDer : List Nat
  leaf : Leaf
  deriving DecidableEq, Repr

/-- `setup_certificate` (`src/mitm/cert.rs` lines 25-102), over a filesystem
state `fs` and the crypto externals: `parseKey` models
`KeyPair::from_der(..).is_ok()`, `parseCaCert` models
`CertificateParams::from_ca_cert_der(..)` followed by
`GenCertificate::from_params(..)` succeeding, and `gen` is the root CA the
run would generate.

* If *both* artifact files exist (`cert_path.exists() && key_path.exists()`),
  read and parse them — the key first (`"无效的证书私钥"`), then the
  certificate (`"无效的根证书"`); a parse failure is surfaced as an error.
  On success the filesystem is untouched and the loaded root (its DER being
  the file's bytes) becomes the active CA.
* Otherwise (either file missing), generate a new root CA, write the
  certificate bytes and then the key bytes as two independent file writes
  (truncating whatever was there), and make it the active CA.

In both branches the run ends by minting the leaf certificate for
`DOMAIN_INTERCEPT`, signed by the active CA. -/
def setup_certificate (fs : FileSystem)
    (parseKey : List Nat → Bool) (parseCaCert : List Nat → Bool)
    (gen : GeneratedCa) : Except CertError SetupResult :=
  match fs.certFile, fs.keyFile with
  | some certDer, some keyDer =>
    if parseKey keyDer = false then
      Except.error (CertError.configError "无效的证书私钥")
    else if parseCaCert certDer = false then
      Except.error (CertError.configError "无效的根证书")
    else
      Except.ok
        { fs := fs
          events := [CertEvent.loadedArtifacts, CertEvent.signedLeaf certDer]
          caDer := certDer
          leaf := ⟨DOMAIN_INTERCEPT, certDer⟩ }
  | _, _ =>
    Except.ok
      { fs := ⟨some gen.der, some gen.keyDer⟩
        events := [CertEvent.generatedCa, CertEvent.wroteCert gen.der,
          CertEvent.wroteKey gen.keyDer, CertEvent.signedLeaf gen.der]
        caDer := gen.der
        leaf := ⟨DOMAIN_INTERCEPT, gen.der⟩ }

/-- Whether a `setup_certificate` outcome is a configuration error. -/
def isConfigError : Except CertError SetupResult → Bool
  | Except.error (CertError.configError _) => true
  | Except.ok _ => false

/-! ### Helper lemmas -/

/-- Inversion of a successful `setup_certificate` run: it came either from the
reuse branch (both artifacts present and parseable) or from the generation
branch (some artifact missing). -/
theorem setup_certificate_ok_cases (fs : FileSystem)
    (parseKey parseCaCert : List Nat → Bool) (gen : GeneratedCa) (r : SetupResult)
    (h : setup_certificate fs parseKey parseCaCert gen = Except.ok r) :
    (∃ c k, fs.certFile = some c ∧ fs.keyFile = some k ∧
      parseKey k = true ∧ parseCaCert c = true ∧
      r = ⟨fs, [CertEvent.loadedArtifacts, CertEvent.signedLeaf c], c,
        ⟨DOMAIN_INTERCEPT, c⟩⟩) ∨
    ((fs.certFile = none ∨ fs.keyFile = none) ∧
      r = ⟨⟨some gen.der, some gen.keyDer⟩,
        [CertEvent.generatedCa, CertEvent.wroteCert gen.der,
          CertEvent.wroteKey gen.keyDer, CertEvent.signedLeaf gen.der],
        gen.der, ⟨DOMAIN_INTERCEPT, gen.der⟩⟩) := by
  obtain ⟨cf, kf⟩ := fs
  cases cf with
  | none =>
    refine Or.inr ⟨Or.inl rfl, ?_⟩
    simp only [setup_certificate, Except.ok.injEq] at h
    exact h.symm
  | some c =>
    cases kf with
    | none =>
      refine Or.inr ⟨Or.inr rfl, ?_⟩
      simp only [setup_certificate, Except.ok.injEq] at h
      exact h.symm
    | some k =>
      by_cases hpk : parseKey k = false
      · simp [setup_certificate, hpk] at h
      · by_cases hpc : parseCaCert c = false
        · simp [setup_certificate, hpk, hpc] at h
        · have hpk' := eq_true_of_ne_false hpk
          have hpc' := eq_true_of_ne_false hpc
          refine Or.inl ⟨c, k, rfl, rfl, hpk', hpc', ?_⟩
          simp [setup_certificate, hpk', hpc'] at h
          exact h.symm

/-! ### Claim theorems -/

/-- C4: classification of an incoming outer request is a pure three-way
decision — the Intercept path is taken exactly when the method is CONNECT and
the authority host is a (case-sensitive, string-equality) member of the fixed
intercept domain set; the Tunnel path exactly when the method is CONNECT and
the host matches no member (including when no authority is present); the
Forward path exactly when the method is not CONNECT. -/
theorem classify_three_way (m : String) (h : Option String) :
    (classify m h = Route.intercept ↔
      m = "CONNECT" ∧ ∃ d, d ∈ DOMAIN_INTERCEPT ∧ h = some d) ∧
    (classify m h = Route.tunnel ↔
      m = "CONNECT" ∧ ∀ d ∈ DOMAIN_INTERCEPT, h ≠ some d) ∧
    (classify m h = Route.forward ↔ m ≠ "CONNECT") := by
  by_cases hm : m = "CONNECT"
  · by_cases h1 : h = some "hk4e-api.mihoyo.com"
    · simp [classify, DOMAIN_INTERCEPT, hm, h1]
    · by_cases h2 : h = some "hk4e-api-os.mihoyo.com"
      · simp [classify, DOMAIN_INTERCEPT, hm, h1, h2]
      · simp [classify, DOMAIN_INTERCEPT, hm, h1, h2]
  · simp [classify, DOMAIN_INTERCEPT, hm]

/-- C10: the inner intercept handler panics (a failed `unwrap` while
rebuilding the absolute URI) on an inner request with no Host header, and on
one whose Host header value is not visible ASCII (here `"host\n"`, containing
byte 10). -/
theorem inner_handler_panics_on_bad_host :
    proxy_intercept_inner ChannelState.available
      ⟨none, some ⟨"/event/gacha_info/api/getGachaLog", none⟩⟩ =
      InnerOutcome.panicked ∧
    proxy_intercept_inner ChannelState.available
      ⟨some ⟨[104, 111, 115, 116, 10]⟩, some ⟨"/", none⟩⟩ =
      InnerOutcome.panicked := by
  decide

/-- C2 counterexample: with both copy directions reaching end-of-stream
successfully — client→remote at time 3, remote→client at time 10 — the
`try_join!`-based splice task (and the closing of both ends) finishes at
time 10, not at time 3: the session does not terminate as soon as the first
direction reaches end-of-stream, and the other direction stays alive after
the first one closes. -/
theorem tunnel_not_ended_by_first_eof_cex :
    tunnel_session ⟨3, true⟩ ⟨10, true⟩ = ⟨10, 10, 10⟩ ∧ (10 : Nat) ≠ min 3 10 := by
  decide

/-- C2 amended: in a tunnel session the two streams are both closed exactly
when the splice task ends; the task ends at the first error when a direction
errors (an error in one direction cancels the other), but a successful
end-of-stream of one direction does not terminate the other — when both
directions end with end-of-stream the task ends only once the later one
does. -/
theorem tunnel_termination (a b : CopyOutcome) :
    (tunnel_session a b).clientClosedAt = (tunnel_session a b).endTime ∧
    (tunnel_session a b).remoteClosedAt = (tunnel_session a b).endTime ∧
    (a.ok = true → b.ok = true → (tunnel_session a b).endTime = max a.time b.time) ∧
    (a.ok = false → b.ok = true → (tunnel_session a b).endTime = a.time) ∧
    (a.ok = true → b.ok = false → (tunnel_session a b).endTime = b.time) ∧
    (a.ok = false → b.ok = false → (tunnel_session a b).endTime = min a.time b.time) := by
  obtain ⟨ta, oa⟩ := a
  obtain ⟨tb, ob⟩ := b
  cases oa <;> cases ob <;> simp [tunnel_session, try_join_end]

/-- C2 amended witness: a client→remote copy erroring at time 3 while
remote→client would reach end-of-stream at time 10 ends the session at
time 3. -/
theorem tunnel_termination_witness :
    (tunnel_session ⟨3, false⟩ ⟨10, true⟩).endTime = 3 :=
  (tunnel_termination ⟨3, false⟩ ⟨10, true⟩).2.2.2.1 rfl rfl

/-- C7: the Tunnel-path handler's result is exactly the result of
`acquire_connection` — on a connect failure the handler resolves with that
error and no CONNECT acknowledgment appears in the trace; on success the
acknowledgment is in the trace, strictly after the establishment of the raw
outbound connection. -/
theorem connect_before_ack (net : String → Except String Unit) (authority : Option String) :
    (proxy_pass_tls net authority).2 = acquire_connection net authority ∧
    (∀ e, acquire_connection net authority = Except.error e →
      TlsStep.ackSent ∉ (proxy_pass_tls net authority).1) ∧
    (∀ u, acquire_connection net authority = Except.ok u →
      TlsStep.ackSent ∈ (proxy_pass_tls net authority).1 ∧
      ((proxy_pass_tls net authority).1).indexOf TlsStep.acquiredConnection <
        ((proxy_pass_tls net authority).1).indexOf TlsStep.ackSent) := by
  cases hacq : acquire_connection net authority with
  | error e => simp [proxy_pass_tls, hacq]
  | ok u =>
    refine ⟨by simp [proxy_pass_tls, hacq], by simp [proxy_pass_tls, hacq], ?_⟩
    intro v _
    refine ⟨by simp [proxy_pass_tls, hacq], ?_⟩
    simp only [proxy_pass_tls, hacq]
    decide

/-- C7 witness: with an outbound network on which every connect succeeds, the
CONNECT acknowledgment for a tunneled authority appears in the handler's
trace (after the connection was established). -/
theorem connect_before_ack_witness :
    TlsStep.ackSent ∈ (proxy_pass_tls (fun _ => Except.ok ()) (some "example.com:443")).1 :=
  ((connect_before_ack (fun _ => Except.ok ()) (some "example.com:443")).2.2 () rfl).1

/-- C8: the overall wait of `tap_for_url` resolves with the "no URL captured"
error exactly when the capture channel closes without ever delivering a
value; otherwise graceful shutdown is triggered and the result is exactly the
first delivered value, never a later one. -/
theorem tap_first_or_error (delivered : List String) :
    ((tap_for_url delivered).result = Except.error TapError.noUrlCaptured ↔
      delivered = []) ∧
    (∀ u rest, delivered = u :: rest →
      (tap_for_url delivered).shutdownTriggered = true ∧
      (tap_for_url delivered).result = Except.ok u) := by
  cases delivered <;> simp [tap_for_url]

/-- C8 witness: with two values delivered on the capture channel, the wait
returns exactly the first one. -/
theorem tap_first_or_error_witness :
    (tap_for_url ["https://a.example/x", "https://b.example/y"]).result =
      Except.ok "https://a.example/x" :=
  ((tap_first_or_error ["https://a.example/x", "https://b.example/y"]).2
    "https://a.example/x" ["https://b.example/y"] rfl).2

/-- C3: when both root-CA artifacts exist and parse, `setup_certificate`
reuses them unmodified — the filesystem is returned untouched, the active
root certificate's DER bytes are exactly the persisted certificate bytes, and
no write of either artifact occurs; when either artifact is missing, a fresh
root CA is generated and both artifacts are persisted — the certificate bytes
written first, then the key bytes, and both writes happen before the root's
first use (signing the leaf), as witnessed by the ordered sub-trace. -/
theorem setup_certificate_reuse_or_generate (fs : FileSystem)
    (parseKey parseCaCert : List Nat → Bool) (gen : GeneratedCa) :
    (∀ c k, fs.certFile = some c → fs.keyFile = some k →
      parseKey k = true → parseCaCert c = true →
      ∃ r, setup_certificate fs parseKey parseCaCert gen = Except.ok r ∧
        r.fs = fs ∧ r.caDer = c ∧
        (∀ b, CertEvent.wroteCert b ∉ r.events) ∧
        (∀ b, CertEvent.wroteKey b ∉ r.events)) ∧
    ((fs.certFile = none ∨ fs.keyFile = none) →
      ∃ r, setup_certificate fs parseKey parseCaCert gen = Except.ok r ∧
        r.fs = ⟨some gen.der, some gen.keyDer⟩ ∧ r.caDer = gen.der ∧
        List.Sublist [CertEvent.wroteCert gen.der, CertEvent.wroteKey gen.keyDer,
          CertEvent.signedLeaf gen.der] r.events) := by
  obtain ⟨cf, kf⟩ := fs
  constructor
  · rintro c k rfl rfl hpk hpc
    refine ⟨⟨⟨some c, some k⟩, [CertEvent.loadedArtifacts, CertEvent.signedLeaf c], c,
        ⟨DOMAIN_INTERCEPT, c⟩⟩, ?_, rfl, rfl, ?_, ?_⟩
    · simp [setup_certificate, hpk, hpc]
    · intro b
      simp
    · intro b
      simp
  · rintro (rfl | rfl)
    · exact ⟨⟨⟨some gen.der, some gen.keyDer⟩,
        [CertEvent.generatedCa, CertEvent.wroteCert gen.der,
          CertEvent.wroteKey gen.keyDer, CertEvent.signedLeaf gen.der],
        gen.der, ⟨DOMAIN_INTERCEPT, gen.der⟩⟩, rfl, rfl, rfl,
        List.Sublist.cons _ (List.Sublist.refl _)⟩
    · cases cf with
      | none => exact ⟨⟨⟨some gen.der, some gen.keyDer⟩,
          [CertEvent.generatedCa, CertEvent.wroteCert gen.der,
            CertEvent.wroteKey gen.keyDer, CertEvent.signedLeaf gen.der],
          gen.der, ⟨DOMAIN_INTERCEPT, gen.der⟩⟩, rfl, rfl, rfl,
          List.Sublist.cons _ (List.Sublist.refl _)⟩
      | some c => exact ⟨⟨⟨some gen.der, some gen.keyDer⟩,
          [CertEvent.generatedCa, CertEvent.wroteCert gen.der,
            CertEvent.wroteKey gen.keyDer, CertEvent.signedLeaf gen.der],
          gen.der, ⟨DOMAIN_INTERCEPT, gen.der⟩⟩, rfl, rfl, rfl,
          List.Sublist.cons _ (List.Sublist.refl _)⟩

/-- C3 witness: the reuse branch on a filesystem holding parseable artifacts
`[1, 2]` / `[3, 4]` keeps the filesystem untouched with active root `[1, 2]`,
and the generation branch on an empty filesystem persists the generated pair
`[9]` / `[8]`. -/
theorem setup_certificate_reuse_or_generate_witness :
    (∃ r, setup_certificate ⟨some [1, 2], some [3, 4]⟩ (fun _ => true) (fun _ => true)
        ⟨[9], [8]⟩ = Except.ok r ∧
      r.fs = ⟨some [1, 2], some [3, 4]⟩ ∧ r.caDer = [1, 2] ∧
      (∀ b, CertEvent.wroteCert b ∉ r.events) ∧
      (∀ b, CertEvent.wroteKey b ∉ r.events)) ∧
    (∃ r, setup_certificate ⟨none, none⟩ (fun _ => true) (fun _ => true)
        ⟨[9], [8]⟩ = Except.ok r ∧
      r.fs = ⟨some [9], some [8]⟩ ∧ r.caDer = [9] ∧
      List.Sublist [CertEvent.wroteCert [9], CertEvent.wroteKey [8],
        CertEvent.signedLeaf [9]] r.events) :=
  ⟨(setup_certificate_reuse_or_generate ⟨some [1, 2], some [3, 4]⟩
      (fun _ => true) (fun _ => true) ⟨[9], [8]⟩).1 [1, 2] [3, 4] rfl rfl rfl rfl,
   (setup_certificate_reuse_or_generate ⟨none, none⟩
      (fun _ => true) (fun _ => true) ⟨[9], [8]⟩).2 (Or.inl rfl)⟩

/-- C6 counterexample: with the certificate artifact present but unparseable
(`[0]`, every parse failing) and the key artifact missing, `setup_certificate`
does not fail with a configuration error — it regenerates, silently
overwriting the corrupt-but-present certificate file with the fresh bytes
`[1]`. -/
theorem corrupt_cert_regenerated_cex :
    isConfigError (setup_certificate ⟨some [0], none⟩ (fun _ => false) (fun _ => false)
      ⟨[1], [2]⟩) = false ∧
    setup_certificate ⟨some [0], none⟩ (fun _ => false) (fun _ => false) ⟨[1], [2]⟩ =
      Except.ok ⟨⟨some [1], some [2]⟩,
        [CertEvent.generatedCa, CertEvent.wroteCert [1], CertEvent.wroteKey [2],
         CertEvent.signedLeaf [1]], [1], ⟨DOMAIN_INTERCEPT, [1]⟩⟩ :=
  ⟨rfl, rfl⟩

/-- C6 amended: the parse-failure configuration error is raised exactly when
*both* artifacts exist and either fails to parse; whenever either artifact is
missing, `setup_certificate` regenerates (succeeding, and overwriting
whatever counterpart file — parseable or corrupt — was present). -/
theorem parse_failure_config_error (fs : FileSystem)
    (parseKey parseCaCert : List Nat → Bool) (gen : GeneratedCa) :
    (∀ c k, fs.certFile = some c → fs.keyFile = some k →
      (parseKey k = false ∨ parseCaCert c = false) →
      isConfigError (setup_certificate fs parseKey parseCaCert gen) = true) ∧
    ((fs.certFile = none ∨ fs.keyFile = none) →
      ∃ r, setup_certificate fs parseKey parseCaCert gen = Except.ok r ∧
        r.fs = ⟨some gen.der, some gen.keyDer⟩) := by
  obtain ⟨cf, kf⟩ := fs
  constructor
  · rintro c k rfl rfl (hpk | hpc)
    · simp [setup_certificate, hpk, isConfigError]
    · by_cases hpk : parseKey k = false
      · simp [setup_certificate, hpk, isConfigError]
      · simp [setup_certificate, eq_true_of_ne_false hpk, hpc, isConfigError]
  · rintro (rfl | rfl)
    · exact ⟨⟨⟨some gen.der, some gen.keyDer⟩,
        [CertEvent.generatedCa, CertEvent.wroteCert gen.der,
          CertEvent.wroteKey gen.keyDer, CertEvent.signedLeaf gen.der],
        gen.der, ⟨DOMAIN_INTERCEPT, gen.der⟩⟩, rfl, rfl⟩
    · cases cf with
      | none => exact ⟨⟨⟨some gen.der, some gen.keyDer⟩,
          [CertEvent.generatedCa, CertEvent.wroteCert gen.der,
            CertEvent.wroteKey gen.keyDer, CertEvent.signedLeaf gen.der],
          gen.der, ⟨DOMAIN_INTERCEPT, gen.der⟩⟩, rfl, rfl⟩
      | some c => exact ⟨⟨⟨some gen.der, some gen.keyDer⟩,
          [CertEvent.generatedCa, CertEvent.wroteCert gen.der,
            CertEvent.wroteKey gen.keyDer, CertEvent.signedLeaf gen.der],
          gen.der, ⟨DOMAIN_INTERCEPT, gen.der⟩⟩, rfl, rfl⟩

/-- C6 amended witness: with both artifacts present and both parses failing,
the run fails with a configuration error. -/
theorem parse_failure_config_error_witness :
    isConfigError (setup_certificate ⟨some [0], some [1]⟩ (fun _ => false) (fun _ => false)
      ⟨[2], [3]⟩) = true :=
  (parse_failure_config_error ⟨some [0], some [1]⟩ (fun _ => false) (fun _ => false)
    ⟨[2], [3]⟩).1 [0] [1] rfl rfl (Or.inl rfl)

/-- C9: every successful `setup_certificate` run mints a leaf certificate
whose subject-alternative-name list is exactly the fixed intercept domain set
and whose issuer is the active root certificate — the root loaded from disk
(its DER being the persisted bytes) when both artifacts were present, and the
freshly generated root when either was missing. -/
theorem leaf_san_and_issuer (fs : FileSystem)
    (parseKey parseCaCert : List Nat → Bool) (gen : GeneratedCa) (r : SetupResult)
    (h : setup_certificate fs parseKey parseCaCert gen = Except.ok r) :
    r.leaf.subjectAltNames = DOMAIN_INTERCEPT ∧ r.leaf.issuerDer = r.caDer ∧
    ((fs.certFile = none ∨ fs.keyFile = none) → r.caDer = gen.der) ∧
    (∀ c k, fs.certFile = some c → fs.keyFile = some k → r.caDer = c) := by
  rcases setup_certificate_ok_cases fs parseKey parseCaCert gen r h with
    ⟨c, k, hc, hk, _, _, rfl⟩ | ⟨hmiss, rfl⟩
  · refine ⟨rfl, rfl, ?_, ?_⟩
    · rintro (hnone | hnone)
      · rw [hc] at hnone
        exact Option.noConfusion hnone
      · rw [hk] at hnone
        exact Option.noConfusion hnone
    · intro c' k' hc' hk'
      rw [hc] at hc'
      exact Option.some.inj hc'
  · refine ⟨rfl, rfl, fun _ => rfl, ?_⟩
    intro c' k' hc' hk'
    rcases hmiss with hnone | hnone
    · rw [hnone] at hc'
      exact Option.noConfusion hc'
    · rw [hnone] at hk'
      exact Option.noConfusion hk'

/-- C9 witness: on an empty filesystem the minted leaf covers exactly the
intercept domain set and is issued by the freshly generated root `[7]`. -/
theorem leaf_san_and_issuer_witness :
    ∃ r, setup_certificate ⟨none, none⟩ (fun _ => true) (fun _ => true) ⟨[7], [6]⟩ =
        Except.ok r ∧ r.leaf.subjectAltNames = DOMAIN_INTERCEPT ∧
      r.leaf.issuerDer = r.caDer ∧ r.caDer = [7] :=
  ⟨_, rfl,
    (leaf_san_and_issuer ⟨none, none⟩ (fun _ => true) (fun _ => true) ⟨[7], [6]⟩ _ rfl).1,
    (leaf_san_and_issuer ⟨none, none⟩ (fun _ => true) (fun _ => true) ⟨[7], [6]⟩ _ rfl).2.1,
    (leaf_san_and_issuer ⟨none, none⟩ (fun _ => true) (fun _ => true) ⟨[7], [6]⟩ _ rfl).2.2.1
      (Or.inl rfl)⟩

end Mitm
